import Mathlib

/-!
Shallow embedding of the acquisition-task core of `src/src/main.rs`
(the `DAQVTask` struct, its constructor `new`, `acquire_samples`,
`get_samples` / `get_timestamps`, and the `Drop` implementation).

Modelling decisions, each noted again at the definition it concerns:
* Driver calls (`DAQmxCreateTask`, `DAQmxCreateAIVoltageChan`,
  `DAQmxGetTaskNumChans`, `DAQmxCfgSampClkTiming`, `DAQmxStartTask`,
  `DAQmxReadAnalogF64`, `DAQmxStopTask`, `DAQmxClearTask`) are external;
  their status codes and outputs are supplied by a `DriverResp` record,
  and every function additionally returns the list of driver calls it
  issued, so that resource-release claims can be stated as trace
  properties.
* `float64` values are modelled as `ℚ`; the `as i64` cast of the period
  computation is modelled as saturating truncation toward zero, which is
  the Rust `f64 as i64` semantics.
* `DateTime<Local>` / `TimeDelta` are modelled as `Int` nanosecond ticks,
  matching the code's own `TimeDelta::nanoseconds` arithmetic.
* The source assigns `self.samples_read` in `acquire_samples` and reads a
  variable `read` in `get_samples` / `get_timestamps`, although the struct
  declaration omits the field; the evident meaning (a `samples_read` field
  holding the last read count) is embedded as such.
* Rust panics (`expect`, `assert!`, `unwrap`, out-of-bounds indexing) are
  a distinct `Outcome.panicked` result, separate from `Err` returns.
-/

/-- Driver status code (C `int32`). Zero means success. -/
abbrev Status := Int

/-- Terminal-configuration mode enumeration of the source (`MeasurementMode`). -/
inductive MeasurementMode
  | RSE
  | NRSE
  | DIFF
  | PSEUDODIFF
deriving DecidableEq, Repr

/-- Translation of `MeasurementMode` to the DAQmx terminal-mode constants,
as in the `match mode` block of `DAQVTask::new`. -/
def modeVal : MeasurementMode → Int
  | .RSE => 10083
  | .NRSE => 10078
  | .DIFF => 10106
  | .PSEUDODIFF => 12529

/-- Responses the external DAQmx driver gives to each kind of call during one
execution: the status code of each operation, the channel count written by
`DAQmxGetTaskNumChans`, and the per-channel sample count (`read`) and sample
data written by `DAQmxReadAnalogF64`. -/
structure DriverResp where
  createTaskStatus : Status
  createChanStatus : Status
  numChansStatus : Status
  numChans : Nat
  cfgClkStatus : Status
  startStatus : Status
  readStatus : Status
  readCount : Int
  readData : Nat → ℚ
  stopStatus : Status
  clearStatus : Status

/-- One driver call issued by the program; the read call records the timeout
argument it was given (the second argument of `DAQmxReadAnalogF64`). -/
inductive DriverCall
  | createTask
  | createAIVoltageChan
  | getTaskNumChans
  | cfgSampClkTiming
  | startTask
  | readAnalogF64 (timeoutSeconds : ℚ)
  | stopTask
  | clearTask
deriving DecidableEq, Repr

/-- The distinct panic sites of the embedded code. -/
inductive PanicKind
  | cstringNewFailed
  | assertChannelsPositive
  | tryIntoFailed
  | indexOutOfBounds
deriving DecidableEq, Repr

/-- Result of a fallible Rust operation: `Ok`, `Err(code)`, or a panic. -/
inductive Outcome (α : Type)
  | ok (a : α)
  | err (code : Status)
  | panicked (k : PanicKind)
deriving DecidableEq, Repr

/-- True exactly on `Outcome.err`. -/
def Outcome.isErr {α : Type} : Outcome α → Bool
  | .err _ => true
  | _ => false

/-- True exactly on `Outcome.ok`. -/
def Outcome.isOk {α : Type} : Outcome α → Bool
  | .ok _ => true
  | _ => false

/-- Length of the payload list of an `ok` outcome, if any. -/
def okLength {α : Type} : Outcome (List α) → Option Nat
  | .ok l => some l.length
  | _ => none

/-- The `DAQVTask` struct of the source. The raw `TaskHandle` pointer is
modelled by whether it is non-null; `samples` is the `Vec<float64>` buffer,
`timestamps` the `Vec<DateTime<Local>>` buffer (nanosecond ticks); the
`samples_read` field is the one `acquire_samples` assigns (see the file
header note). -/
structure DAQVTask where
  task_handle : Bool
  samples : List ℚ
  timestamps : List Int
  channels : Nat
  sample_rate : ℚ
  samples_read : Int
deriving DecidableEq, Repr

instance : Inhabited DAQVTask :=
  ⟨⟨false, [], [], 0, 0, 0⟩⟩

/-- The `CString::new` conversion at line 98 of the source: it fails exactly
when the byte string contains an interior NUL byte. -/
def cstring_new (bytes : List Nat) : Option (List Nat) :=
  if bytes.contains 0 then none else some bytes

/-- The Rust `f64 as i64` cast applied to a rational value: truncation toward
zero (the `Int.tdiv` T-division of the reduced numerator by the denominator),
saturating at the `i64` bounds. -/
def f64ToI64 (q : ℚ) : Int :=
  max (-(2 : Int) ^ 63) (min ((2 : Int) ^ 63 - 1) (Int.tdiv q.num (q.den : Int)))

/-- Effect of `DAQmxReadAnalogF64` on the sample buffer: the driver writes
`n` values into the front of the buffer in place (never past its end, since
the call is passed the buffer length as its array size), leaving both the
rest and the length unchanged. -/
def overwriteFront (buf : List ℚ) (n : Nat) (f : Nat → ℚ) : List ℚ :=
  (List.range buf.length).map (fun j => if j < n then f j else buf.getD j 0)

/-- The timestamp-fill loop of `acquire_samples` (lines 159-163): for
`i in 0..n`, write `start_time + period * i` at index `i` of the timestamp
buffer; an index at or past the buffer length is an out-of-bounds panic,
returned as `none`. -/
def fillLoop (ts : List Int) (start period : Int) : Nat → Option (List Int)
  | 0 => some ts
  | Nat.succ n =>
    match fillLoop ts start period n with
    | none => none
    | some acc =>
      if n < acc.length then some (acc.set n (start + period * n)) else none

/-- The constructor `DAQVTask::new`: create the task, translate the mode,
convert the channel expression to a C string, add the voltage channels,
query the channel count, `assert!(channels > 0)`, configure the sample
clock, and allocate both buffers at `channels * sample_count` entries.
`now0` is the `Local::now()` value used to initialise the timestamp buffer.
Returns the constructor outcome together with the driver calls issued. -/
def DAQVTask.new (d : DriverResp) (chBytes : List Nat) (mode : MeasurementMode)
    (sample_rate : ℚ) (sample_count : Nat) (now0 : Int) :
    Outcome DAQVTask × List DriverCall :=
  if d.createTaskStatus ≠ 0 then
    (.err d.createTaskStatus, [.createTask])
  else
    let _ := modeVal mode
    match cstring_new chBytes with
    | none => (.panicked .cstringNewFailed, [.createTask])
    | some _ =>
      if d.createChanStatus ≠ 0 then
        (.err d.createChanStatus, [.createTask, .createAIVoltageChan])
      else if d.numChansStatus ≠ 0 then
        (.err d.numChansStatus,
          [.createTask, .createAIVoltageChan, .getTaskNumChans])
      else if d.numChans = 0 then
        (.panicked .assertChannelsPositive,
          [.createTask, .createAIVoltageChan, .getTaskNumChans])
      else if d.cfgClkStatus ≠ 0 then
        (.err d.cfgClkStatus,
          [.createTask, .createAIVoltageChan, .getTaskNumChans,
            .cfgSampClkTiming])
      else
        let buffer_size := d.numChans * sample_count
        (.ok ⟨true, List.replicate buffer_size 0,
              List.replicate buffer_size now0,
              d.numChans, sample_rate, 0⟩,
          [.createTask, .createAIVoltageChan, .getTaskNumChans,
            .cfgSampClkTiming])

/-- The method `DAQVTask::acquire_samples`: start the task, issue the
blocking read with the literal timeout `10.0` seconds from the source,
stop the task, then fill one timestamp per read row at spacing
`(1e9 * (1.0 / sample_rate)) as i64` nanoseconds from `start_time` (the
`Local::now()` captured just before the start call). Returns the read
count, the updated task, and the driver calls issued. -/
def DAQVTask.acquire_samples (t : DAQVTask) (d : DriverResp) (start_time : Int) :
    Outcome Int × DAQVTask × List DriverCall :=
  if d.startStatus ≠ 0 then
    (.err d.startStatus, t, [.startTask])
  else if d.readStatus ≠ 0 then
    (.err d.readStatus, t, [.startTask, .readAnalogF64 10])
  else
    let read := d.readCount
    let t1 : DAQVTask :=
      ⟨t.task_handle, overwriteFront t.samples (read.toNat * t.channels) d.readData,
        t.timestamps, t.channels, t.sample_rate, t.samples_read⟩
    if d.stopStatus ≠ 0 then
      (.err d.stopStatus, t1, [.startTask, .readAnalogF64 10, .stopTask])
    else
      let period := f64ToI64 (1000000000 * (1 / t.sample_rate))
      match fillLoop t1.timestamps start_time period read.toNat with
      | none =>
        (.panicked .indexOutOfBounds, t1,
          [.startTask, .readAnalogF64 10, .stopTask])
      | some ts2 =>
        (.ok read,
          ⟨t1.task_handle, t1.samples, ts2, t1.channels, t1.sample_rate, read⟩,
          [.startTask, .readAnalogF64 10, .stopTask])

/-- The method `DAQVTask::get_samples`: `Ok(&self.samples[0..read])` where
`read` is the last read count; a negative count panics at
`try_into().unwrap()`, and a slice end past the buffer length panics at the
range indexing. -/
def DAQVTask.get_samples (t : DAQVTask) : Outcome (List ℚ) :=
  if t.samples_read < 0 then .panicked .tryIntoFailed
  else if t.samples.length < t.samples_read.toNat then .panicked .indexOutOfBounds
  else .ok (t.samples.take t.samples_read.toNat)

/-- The method `DAQVTask::get_timestamps`: `Ok(&self.timestamps[0..read])`,
with the same panic conditions as `get_samples`. -/
def DAQVTask.get_timestamps (t : DAQVTask) : Outcome (List Int) :=
  if t.samples_read < 0 then .panicked .tryIntoFailed
  else if t.timestamps.length < t.samples_read.toNat then .panicked .indexOutOfBounds
  else .ok (t.timestamps.take t.samples_read.toNat)

/-- Body of `impl Drop for DAQVTask`: when the stored handle is non-null,
call stop then clear, checking each status only with the logging macro
`check_err!` (which never returns an error); when the handle is null, touch
the driver not at all. The task value itself is not modified — in
particular the handle is never nulled out. -/
def DAQVTask.dropBody (t : DAQVTask) (d : DriverResp) : DAQVTask × List DriverCall :=
  if t.task_handle then (t, [.stopTask, .clearTask]) else (t, [])

/-- True exactly on the clear call. -/
def isClearCall : DriverCall → Bool
  | .clearTask => true
  | _ => false

/-- Number of `DAQmxClearTask` calls in a trace. -/
def clearCount (tr : List DriverCall) : Nat :=
  (tr.filter isClearCall).length

/-- Run a sequence of `acquire_samples` attempts on a task, each with its own
driver responses and start time, threading the task state and concatenating
the traces. A panicking attempt unwinds: the remaining attempts do not run
(the destructor still runs afterwards, in `lifecycleTrace`). -/
def runAcquires : DAQVTask → List (DriverResp × Int) → DAQVTask × List DriverCall
  | t, [] => (t, [])
  | t, (d, s) :: rest =>
    match t.acquire_samples d s with
    | (.panicked _, t1, tr1) => (t1, tr1)
    | (_, t1, tr1) =>
      let r := runAcquires t1 rest
      (r.1, tr1 ++ r.2)

/-- Driver-call trace of one whole task lifetime: construction, then (only
when construction returned a task) the given acquire attempts followed by
the `Drop` body at end of scope (Rust runs `Drop` both on normal scope
exit and during panic unwinding). When construction returns `Err` or
panics before the struct is built, no `DAQVTask` value ever exists, so
`Drop` never runs. -/
def lifecycleTrace (d : DriverResp) (chBytes : List Nat) (mode : MeasurementMode)
    (sample_rate : ℚ) (sample_count : Nat) (now0 : Int)
    (rounds : List (DriverResp × Int)) (dDrop : DriverResp) : List DriverCall :=
  match DAQVTask.new d chBytes mode sample_rate sample_count now0 with
  | (.ok t, tr) =>
    let ra := runAcquires t rounds
    tr ++ ra.2 ++ (ra.1.dropBody dDrop).2
  | (.err _, tr) => tr
  | (.panicked _, tr) => tr

/-- Convenience: build a `DriverResp` with all-zero sample data. -/
def mkDriver (ct cc ncs : Status) (nc : Nat) (cfg st rd : Status) (rc : Int)
    (sp cl : Status) : DriverResp :=
  ⟨ct, cc, ncs, nc, cfg, st, rd, rc, fun _ => 0, sp, cl⟩

/-- Extract the task of a successful construction (defaulting otherwise). -/
def okTask (r : Outcome DAQVTask × List DriverCall) : DAQVTask :=
  match r.1 with
  | .ok t => t
  | _ => default

/-! ### Concrete inputs used by the claim evaluations -/

/-- Driver for the C1 run: 2 channels, all calls succeed, read reports 2 rows. -/
def c1Driver : DriverResp := mkDriver 0 0 0 2 0 0 0 2 0 0

/-- Task constructed for the C1 run (2 channels, 3 samples per channel). -/
def c1Task : DAQVTask := okTask (DAQVTask.new c1Driver [97] .RSE 1000 3 0)

/-- Task state after the C1 acquire (2 of 3 rows read). -/
def c1After : DAQVTask := (c1Task.acquire_samples c1Driver 0).2.1

/-- Driver whose create call succeeds but whose channel-add call fails. -/
def c2xDriver : DriverResp := mkDriver 0 1 0 0 0 0 0 0 0 0

/-- Driver with every call succeeding, one channel, one row read. -/
def c2wDriver : DriverResp := mkDriver 0 0 0 1 0 0 0 1 0 0

/-- A task holding a live (non-null) handle. -/
def c3Task : DAQVTask := ⟨true, [], [], 1, 1000, 0⟩

/-- A task whose stored handle is null. -/
def c3NullTask : DAQVTask := ⟨false, [], [], 1, 1000, 0⟩

/-- Driver used by the teardown evaluations. -/
def c3Driver : DriverResp := mkDriver 0 0 0 1 0 0 0 0 0 0

/-- Task with sample rate 2e9 samples per second: the nanosecond period
truncates to zero. -/
def c4xTask : DAQVTask :=
  ⟨true, List.replicate 4 0, List.replicate 4 0, 2, 2000000000, 0⟩

/-- Task with sample rate 1000 samples per second. -/
def c4wTask : DAQVTask := ⟨true, List.replicate 4 0, List.replicate 4 0, 2, 1000, 0⟩

/-- Driver with every call succeeding, 2 channels, read reports 2 rows. -/
def c4Driver : DriverResp := mkDriver 0 0 0 2 0 0 0 2 0 0

/-- Driver for the timeout evaluations: success everywhere, 1 row read. -/
def c5Driver : DriverResp := mkDriver 0 0 0 2 0 0 0 1 0 0

/-- Task configured at 1000 samples per second for 2 samples per channel
(expected duration 2 ms). -/
def c5xTaskA : DAQVTask := okTask (DAQVTask.new c5Driver [97] .RSE 1000 2 0)

/-- Task configured at 1 sample per second for 20 samples per channel
(expected duration 20 s, longer than the fixed 10 s timeout). -/
def c5xTaskB : DAQVTask := okTask (DAQVTask.new c5Driver [97] .RSE 1 20 0)

/-- Driver whose channel-count query succeeds and reports zero channels. -/
def c6xDriver : DriverResp := mkDriver 0 0 0 0 0 0 0 0 0 0

/-- Driver reporting three channels, all calls succeeding. -/
def c6wDriver : DriverResp := mkDriver 0 0 0 3 0 0 0 0 0 0

/-- One-channel task with room for 2 rows. -/
def c7Task : DAQVTask := ⟨true, List.replicate 2 0, List.replicate 2 0, 1, 1000, 0⟩

/-- Driver failing the start call with status 5. -/
def c7DStart : DriverResp := mkDriver 0 0 0 1 0 5 0 0 0 0

/-- Driver failing the read call with status 5. -/
def c7DRead : DriverResp := mkDriver 0 0 0 1 0 0 5 0 0 0

/-- Driver with every call succeeding and one row read. -/
def c7DGood : DriverResp := mkDriver 0 0 0 1 0 0 0 1 0 0

/-- Driver for the buffer-reuse run: 2 channels, one row read each time. -/
def c8Driver : DriverResp := mkDriver 0 0 0 2 0 0 0 1 0 0

/-- Driver for the in-bounds fill: 2 channels, 3 rows reported. -/
def c9DOk : DriverResp := mkDriver 0 0 0 2 0 0 0 3 0 0

/-- Driver reporting 5 rows, more than the 4-entry buffer. -/
def c9DBig : DriverResp := mkDriver 0 0 0 2 0 0 0 5 0 0

/-- Task constructed with 2 channels and 2 samples per channel (4-entry buffers). -/
def c9Task : DAQVTask := okTask (DAQVTask.new c9DOk [97] .RSE 1000 2 0)

/-- Driver with every call succeeding, one channel. -/
def c10Driver : DriverResp := mkDriver 0 0 0 1 0 0 0 0 0 0

/-! ### Helper lemmas -/

/-- Writing into a set cell at its own index. -/
theorem getD_set_self (l : List Int) (i : Nat) (a d : Int) (h : i < l.length) :
    (l.set i a).getD i d = a := by
  rw [List.getD_eq_getElem?_getD, List.getElem?_set_self', List.getElem?_eq_getElem h]
  rfl

/-- Setting one cell leaves every other index unchanged. -/
theorem getD_set_ne (l : List Int) (i j : Nat) (a d : Int) (h : i ≠ j) :
    (l.set i a).getD j d = l.getD j d := by
  rw [List.getD_eq_getElem?_getD, List.getD_eq_getElem?_getD, List.getElem?_set_ne h]

/-- When the loop bound fits in the buffer, the fill loop succeeds and
produces the linear timestamp grid on the first `n` cells, leaving the rest
unchanged. -/
theorem fillLoop_some (start period : Int) (ts : List Int) (n : Nat)
    (h : n ≤ ts.length) :
    ∃ ts2, fillLoop ts start period n = some ts2 ∧
      ts2.length = ts.length ∧
      (∀ i, i < n → ts2.getD i 0 = start + period * i) ∧
      (∀ i, n ≤ i → ts2.getD i 0 = ts.getD i 0) := by
  induction n with
  | zero =>
    exact ⟨ts, rfl, rfl, fun i hi => absurd hi (Nat.not_lt_zero i), fun i _ => rfl⟩
  | succ n ih =>
    obtain ⟨ts2, heq, hlen, hgrid, hrest⟩ := ih (Nat.le_of_succ_le h)
    have hn : n < ts2.length := by omega
    refine ⟨ts2.set n (start + period * n), ?_, ?_, ?_, ?_⟩
    · unfold fillLoop
      rw [heq]
      simp [hn]
    · simp [hlen]
    · intro i hi
      rcases Nat.lt_succ_iff_lt_or_eq.mp hi with hi2 | hi2
      · rw [getD_set_ne ts2 n i _ _ (by omega)]
        exact hgrid i hi2
      · subst hi2
        rw [getD_set_self ts2 i _ _ hn]
    · intro i hi
      rw [getD_set_ne ts2 n i _ _ (by omega)]
      exact hrest i (by omega)

/-- A successful fill never changes the buffer length. -/
theorem fillLoop_length (start period : Int) (n : Nat) :
    ∀ (ts ts2 : List Int), fillLoop ts start period n = some ts2 →
      ts2.length = ts.length := by
  induction n with
  | zero =>
    intro ts ts2 h
    injection h with h
    rw [← h]
  | succ n ih =>
    intro ts ts2 h
    unfold fillLoop at h
    cases hrec : fillLoop ts start period n with
    | none => rw [hrec] at h; exact absurd h (by simp)
    | some acc =>
      rw [hrec] at h
      by_cases hn : n < acc.length
      · simp [hn] at h
        rw [← h, List.length_set]
        exact ih ts acc hrec
      · simp [hn] at h

/-- A loop bound past the buffer length makes the fill loop panic. -/
theorem fillLoop_none (start period : Int) (ts : List Int) (n : Nat)
    (h : ts.length < n) : fillLoop ts start period n = none := by
  induction n with
  | zero => omega
  | succ m ih =>
    by_cases hm : ts.length < m
    · unfold fillLoop
      rw [ih hm]
    · have hle : m ≤ ts.length := by omega
      obtain ⟨acc, heq, hlen, _, _⟩ := fillLoop_some start period ts m hle
      have hnot : ¬ m < acc.length := by omega
      unfold fillLoop
      rw [heq]
      simp [hnot]

/-- The driver's in-place write never changes the buffer length. -/
theorem overwriteFront_length (buf : List ℚ) (n : Nat) (f : Nat → ℚ) :
    (overwriteFront buf n f).length = buf.length := by
  simp [overwriteFront]

/-- Clear calls in a concatenation of traces. -/
theorem clearCount_append (a b : List DriverCall) :
    clearCount (a ++ b) = clearCount a + clearCount b := by
  simp [clearCount, List.filter_append]

/-- Characterisation of a successful construction: the task a successful
`DAQVTask::new` returns has a live handle, both buffers allocated at
`numChans * sample_count` entries, the driver's channel count, the given
sample rate, and the trace of the four configuration calls. -/
theorem new_ok_inv (d : DriverResp) (chBytes : List Nat) (mode : MeasurementMode)
    (sample_rate : ℚ) (sample_count : Nat) (now0 : Int) (t : DAQVTask)
    (tr : List DriverCall)
    (h : DAQVTask.new d chBytes mode sample_rate sample_count now0 = (.ok t, tr)) :
    t = ⟨true, List.replicate (d.numChans * sample_count) 0,
          List.replicate (d.numChans * sample_count) now0,
          d.numChans, sample_rate, 0⟩ ∧
      0 < d.numChans ∧
      tr = [.createTask, .createAIVoltageChan, .getTaskNumChans,
            .cfgSampClkTiming] := by
  unfold DAQVTask.new at h
  split at h
  · simp at h
  · split at h
    · simp at h
    · split at h
      · simp at h
      · split at h
        · simp at h
        · split at h
          · simp at h
          · split at h
            · simp at h
            · simp only [Prod.mk.injEq, Outcome.ok.injEq] at h
              refine ⟨h.1.symm, ?_, h.2.symm⟩
              omega

/-- A failing start call: `acquire_samples` returns `Err` with the start
status, leaves the task untouched, and has issued only the start call. -/
theorem acquire_start_err (t : DAQVTask) (d : DriverResp) (s : Int)
    (h : d.startStatus ≠ 0) :
    t.acquire_samples d s = (.err d.startStatus, t, [.startTask]) := by
  simp [DAQVTask.acquire_samples, h]

/-- A failing read call: `acquire_samples` returns `Err` with the read
status and leaves the task untouched. -/
theorem acquire_read_err (t : DAQVTask) (d : DriverResp) (s : Int)
    (h0 : d.startStatus = 0) (h : d.readStatus ≠ 0) :
    t.acquire_samples d s =
      (.err d.readStatus, t, [.startTask, .readAnalogF64 10]) := by
  simp [DAQVTask.acquire_samples, h0, h]

/-- A failing stop call: `acquire_samples` returns `Err` with the stop
status; the driver has already written the sample buffer in place, but the
timestamps and the `samples_read` field are unchanged. -/
theorem acquire_stop_err (t : DAQVTask) (d : DriverResp) (s : Int)
    (h0 : d.startStatus = 0) (h1 : d.readStatus = 0) (h : d.stopStatus ≠ 0) :
    t.acquire_samples d s =
      (.err d.stopStatus,
        ⟨t.task_handle,
          overwriteFront t.samples (d.readCount.toNat * t.channels) d.readData,
          t.timestamps, t.channels, t.sample_rate, t.samples_read⟩,
        [.startTask, .readAnalogF64 10, .stopTask]) := by
  simp [DAQVTask.acquire_samples, h0, h1, h]

/-- With all three driver calls succeeding and the reported read count
within the timestamp-buffer length, `acquire_samples` returns `Ok` with
the read count and fills the timestamp grid. -/
theorem acquire_ok (t : DAQVTask) (d : DriverResp) (s : Int)
    (h0 : d.startStatus = 0) (h1 : d.readStatus = 0) (h2 : d.stopStatus = 0)
    (hb : d.readCount.toNat ≤ t.timestamps.length) :
    ∃ ts2,
      t.acquire_samples d s =
        (.ok d.readCount,
          ⟨t.task_handle,
            overwriteFront t.samples (d.readCount.toNat * t.channels) d.readData,
            ts2, t.channels, t.sample_rate, d.readCount⟩,
          [.startTask, .readAnalogF64 10, .stopTask]) ∧
        ts2.length = t.timestamps.length ∧
        (∀ i, i < d.readCount.toNat →
          ts2.getD i 0 = s + f64ToI64 (1000000000 * (1 / t.sample_rate)) * i) := by
  obtain ⟨ts2, heq, hlen, hgrid, _⟩ :=
    fillLoop_some s (f64ToI64 (1000000000 * (1 / t.sample_rate)))
      t.timestamps d.readCount.toNat hb
  refine ⟨ts2, ?_, hlen, hgrid⟩
  simp only [one_div] at heq
  simp [DAQVTask.acquire_samples, h0, h1, h2, heq]

/-- With all three driver calls succeeding but a reported read count larger
than the timestamp buffer, `acquire_samples` panics out of bounds. -/
theorem acquire_panics (t : DAQVTask) (d : DriverResp) (s : Int)
    (h0 : d.startStatus = 0) (h1 : d.readStatus = 0) (h2 : d.stopStatus = 0)
    (hb : t.timestamps.length < d.readCount.toNat) :
    (t.acquire_samples d s).1 = .panicked .indexOutOfBounds := by
  have hnone := fillLoop_none s (f64ToI64 (1000000000 * (1 / t.sample_rate)))
    t.timestamps d.readCount.toNat hb
  simp only [one_div] at hnone
  simp [DAQVTask.acquire_samples, h0, h1, h2, hnone]

/-- No acquire attempt ever issues a clear call. -/
theorem acquire_clearCount (t : DAQVTask) (d : DriverResp) (s : Int) :
    clearCount (t.acquire_samples d s).2.2 = 0 := by
  simp only [DAQVTask.acquire_samples]
  split
  · rfl
  · split
    · rfl
    · split
      · rfl
      · split <;> rfl

/-- An acquire attempt preserves the handle, the channel count, the sample
rate and both buffer lengths. -/
theorem acquire_preserves (t : DAQVTask) (d : DriverResp) (s : Int) :
    (t.acquire_samples d s).2.1.task_handle = t.task_handle ∧
      (t.acquire_samples d s).2.1.channels = t.channels ∧
      (t.acquire_samples d s).2.1.sample_rate = t.sample_rate ∧
      (t.acquire_samples d s).2.1.samples.length = t.samples.length ∧
      (t.acquire_samples d s).2.1.timestamps.length = t.timestamps.length := by
  simp only [DAQVTask.acquire_samples]
  split
  · exact ⟨rfl, rfl, rfl, rfl, rfl⟩
  · split
    · exact ⟨rfl, rfl, rfl, rfl, rfl⟩
    · split
      · exact ⟨rfl, rfl, rfl, overwriteFront_length _ _ _, rfl⟩
      · split
        · exact ⟨rfl, rfl, rfl, overwriteFront_length _ _ _, rfl⟩
        · rename_i ts2 heq
          exact ⟨rfl, rfl, rfl, overwriteFront_length _ _ _,
            fillLoop_length _ _ _ _ _ heq⟩

/-- Running a sequence of acquire attempts issues no clear call. -/
theorem runAcquires_clearCount (rounds : List (DriverResp × Int)) :
    ∀ t : DAQVTask, clearCount (runAcquires t rounds).2 = 0 := by
  induction rounds with
  | nil => intro t; rfl
  | cons p rest ih =>
    intro t
    obtain ⟨d, s⟩ := p
    have hc := acquire_clearCount t d s
    rcases heqf : t.acquire_samples d s with ⟨o, t1, tr1⟩
    rw [heqf] at hc
    cases o with
    | ok v =>
      simp only [runAcquires, heqf]
      rw [clearCount_append]
      rw [show clearCount tr1 = 0 from hc, ih t1]
    | err c =>
      simp only [runAcquires, heqf]
      rw [clearCount_append]
      rw [show clearCount tr1 = 0 from hc, ih t1]
    | panicked k =>
      simp only [runAcquires, heqf]
      exact hc

/-- Running a sequence of acquire attempts preserves the handle and both
buffer lengths. -/
theorem runAcquires_preserves (rounds : List (DriverResp × Int)) :
    ∀ t : DAQVTask, (runAcquires t rounds).1.task_handle = t.task_handle ∧
      (runAcquires t rounds).1.samples.length = t.samples.length ∧
      (runAcquires t rounds).1.timestamps.length = t.timestamps.length := by
  induction rounds with
  | nil => intro t; exact ⟨rfl, rfl, rfl⟩
  | cons p rest ih =>
    intro t
    obtain ⟨d, s⟩ := p
    have hp := acquire_preserves t d s
    rcases heqf : t.acquire_samples d s with ⟨o, t1, tr1⟩
    rw [heqf] at hp
    cases o with
    | ok v =>
      simp only [runAcquires, heqf]
      obtain ⟨ih1, ih2, ih3⟩ := ih t1
      exact ⟨ih1.trans hp.1, ih2.trans hp.2.2.2.1, ih3.trans hp.2.2.2.2⟩
    | err c =>
      simp only [runAcquires, heqf]
      obtain ⟨ih1, ih2, ih3⟩ := ih t1
      exact ⟨ih1.trans hp.1, ih2.trans hp.2.2.2.1, ih3.trans hp.2.2.2.2⟩
    | panicked k =>
      simp only [runAcquires, heqf]
      exact ⟨hp.1, hp.2.2.2.1, hp.2.2.2.2⟩

/-- A successful fill produces the linear grid on the filled prefix. -/
theorem fillLoop_grid (start period : Int) (n : Nat) :
    ∀ (ts ts2 : List Int), fillLoop ts start period n = some ts2 →
      ∀ i, i < n → ts2.getD i 0 = start + period * i := by
  induction n with
  | zero => intro ts ts2 _ i hi; exact absurd hi (Nat.not_lt_zero i)
  | succ n ih =>
    intro ts ts2 h i hi
    unfold fillLoop at h
    cases hrec : fillLoop ts start period n with
    | none => rw [hrec] at h; exact absurd h (by simp)
    | some acc =>
      rw [hrec] at h
      by_cases hn : n < acc.length
      · simp only [if_pos hn, Option.some.injEq] at h
        rcases Nat.lt_succ_iff_lt_or_eq.mp hi with hi2 | hi2
        · rw [← h, getD_set_ne acc n i _ _ (by omega)]
          exact ih ts acc hrec i hi2
        · subst hi2
          rw [← h, getD_set_self acc i _ _ hn]
      · simp [hn] at h

/-- Inversion of a successful acquire: the returned count is the driver's
reported count and the timestamps are the successful fill of the previous
buffer. -/
theorem acquire_ok_inv (t : DAQVTask) (d : DriverResp) (s : Int) (read : Int)
    (t2 : DAQVTask) (tr : List DriverCall)
    (h : t.acquire_samples d s = (.ok read, t2, tr)) :
    read = d.readCount ∧
      fillLoop t.timestamps s (f64ToI64 (1000000000 * (1 / t.sample_rate)))
        d.readCount.toNat = some t2.timestamps ∧
      t2.sample_rate = t.sample_rate := by
  simp only [DAQVTask.acquire_samples] at h
  split at h
  · simp at h
  · split at h
    · simp at h
    · split at h
      · simp at h
      · split at h
        · simp at h
        · rename_i ts2 heq
          simp only [Prod.mk.injEq, Outcome.ok.injEq] at h
          obtain ⟨h1, h2, _⟩ := h
          subst h2
          exact ⟨h1.symm, heq, rfl⟩

/-! ### Claim theorems -/

/-- Claim C1 (code bug, evaluation at the failing input): with 2 channels,
3 samples per channel and a driver-reported read of 2 rows, the acquire
succeeds, yet `get_samples` exposes only `samples_read = 2` buffer values
instead of `samples_read * channels = 4` — the slice end is `read`, not
`read * channels` — while `get_timestamps` does expose `samples_read = 2`
timestamps. -/
theorem c1_get_samples_length_eval :
    (DAQVTask.new c1Driver [97] MeasurementMode.RSE 1000 3 0).1.isOk = true ∧
    (c1Task.acquire_samples c1Driver 0).1 = Outcome.ok 2 ∧
    c1After.channels = 2 ∧
    c1After.samples_read = 2 ∧
    okLength c1After.get_samples = some 2 ∧
    okLength c1After.get_timestamps = some 2 := by
  exact ⟨by decide, by decide, by decide, by decide, by decide, by decide⟩

/-- Claim C2 counterexample: a run whose `DAQmxCreateTask` call succeeds
(status 0) but whose `DAQmxCreateAIVoltageChan` call fails with status 1.
Construction returns `Err` before a task value exists, so the destructor
never runs: the lifetime trace is just the two configuration calls, and the
allocated handle is never cleared (zero clear calls, not exactly one). -/
theorem c2_counterexample :
    c2xDriver.createTaskStatus = 0 ∧
    (DAQVTask.new c2xDriver [97] MeasurementMode.RSE 1000 1 0).1 = Outcome.err 1 ∧
    lifecycleTrace c2xDriver [97] MeasurementMode.RSE 1000 1 0 [] c2xDriver =
      [DriverCall.createTask, DriverCall.createAIVoltageChan] ∧
    clearCount
      (lifecycleTrace c2xDriver [97] MeasurementMode.RSE 1000 1 0 [] c2xDriver)
      = 0 := by
  exact ⟨by decide, by decide, by decide, by decide⟩

/-- Claim C2 (amended): for every execution in which construction returns a
task, `DAQmxClearTask` is issued exactly once over the task's lifetime —
after any sequence of acquire attempts (successful, failing or panicking)
followed by the destructor — whatever the teardown driver statuses are.
(When construction fails after `create_task` succeeded, no task value ever
exists and clear is never called, as the counterexample shows.) -/
theorem c2_clear_exactly_once (d : DriverResp) (ch : List Nat)
    (mode : MeasurementMode) (rate : ℚ) (cnt : Nat) (now0 : Int)
    (rounds : List (DriverResp × Int)) (dDrop : DriverResp)
    (t : DAQVTask) (tr : List DriverCall)
    (h : DAQVTask.new d ch mode rate cnt now0 = (.ok t, tr)) :
    clearCount (lifecycleTrace d ch mode rate cnt now0 rounds dDrop) = 1 := by
  obtain ⟨ht, hpos, htr⟩ := new_ok_inv d ch mode rate cnt now0 t tr h
  unfold lifecycleTrace
  rw [h]
  simp only
  rw [clearCount_append, clearCount_append, htr]
  have h1 : clearCount [DriverCall.createTask, DriverCall.createAIVoltageChan,
      DriverCall.getTaskNumChans, DriverCall.cfgSampClkTiming] = 0 := by decide
  rw [h1, runAcquires_clearCount rounds t]
  have hh : (runAcquires t rounds).1.task_handle = true := by
    rw [(runAcquires_preserves rounds t).1, ht]
  simp [DAQVTask.dropBody, hh, clearCount, isClearCall]

/-- Claim C2 witness: the amended theorem evaluated on a concrete successful
construction (one channel, one sample) with no acquire attempts. -/
theorem c2_clear_exactly_once_witness :
    clearCount
      (lifecycleTrace c2wDriver [97] MeasurementMode.RSE 1000 1 0 [] c2wDriver)
      = 1 :=
  c2_clear_exactly_once c2wDriver [97] MeasurementMode.RSE 1000 1 0 [] c2wDriver
    ⟨true, List.replicate 1 0, List.replicate 1 0, 1, 1000, 0⟩
    [DriverCall.createTask, DriverCall.createAIVoltageChan,
      DriverCall.getTaskNumChans, DriverCall.cfgSampClkTiming]
    (by decide)

/-- Claim C3 counterexample: running the release logic twice on the same
live-handle task issues a second driver clear call (two in total), because
the drop body never nulls the stored handle — refuting the claimed
idempotence of the release logic. -/
theorem c3_counterexample :
    clearCount ((c3Task.dropBody c3Driver).2 ++
      ((c3Task.dropBody c3Driver).1.dropBody c3Driver).2) = 2 := by
  decide

/-- Claim C3 (amended): teardown performs stop then clear; its result never
carries or re-raises a failure (it is independent of the driver statuses);
it issues no driver call when the stored handle is null; but the release
logic is not idempotent: the handle is never nulled, so running the body a
second time issues a second stop and clear (and still does not crash). -/
theorem c3_teardown (t : DAQVTask) (d d2 : DriverResp) :
    (t.task_handle = false → t.dropBody d = (t, [])) ∧
    (t.task_handle = true →
      t.dropBody d = (t, [DriverCall.stopTask, DriverCall.clearTask])) ∧
    t.dropBody d = t.dropBody d2 ∧
    clearCount ((t.dropBody d).2 ++ ((t.dropBody d).1.dropBody d).2) =
      (if t.task_handle then 2 else 0) := by
  cases h : t.task_handle <;>
    simp [DAQVTask.dropBody, h, clearCount, isClearCall]

/-- Claim C3 witness: the amended theorem evaluated on one live-handle task
and one null-handle task. -/
theorem c3_teardown_witness :
    c3Task.dropBody c3Driver = (c3Task, [DriverCall.stopTask, DriverCall.clearTask]) ∧
    c3NullTask.dropBody c3Driver = (c3NullTask, []) :=
  ⟨(c3_teardown c3Task c3Driver c3Driver).2.1 (by decide),
   (c3_teardown c3NullTask c3Driver c3Driver).1 (by decide)⟩

/-- Claim C4 counterexample: a successful acquire at sample rate 2e9
samples per second. The nanosecond period `(1e9 * (1/rate)) as i64`
truncates to zero, so rows 0 and 1 receive the same timestamp — the
timestamps of this successful call are not strictly increasing (and not
spaced by `1/sample_rate` seconds). -/
theorem c4_counterexample :
    (c4xTask.acquire_samples c4Driver 0).1 = Outcome.ok 2 ∧
    (c4xTask.acquire_samples c4Driver 0).2.1.timestamps.getD 0 0 =
      (c4xTask.acquire_samples c4Driver 0).2.1.timestamps.getD 1 0 := by
  have hp : f64ToI64 (1000000000 * (1 / c4xTask.sample_rate)) = 0 := by
    show f64ToI64 (1000000000 * (1 / (2000000000 : ℚ))) = 0
    norm_num [f64ToI64]
    decide
  obtain ⟨ts2, heq, hlen, hgrid⟩ := acquire_ok c4xTask c4Driver 0 rfl rfl rfl (by decide)
  rw [heq]
  refine ⟨rfl, ?_⟩
  show ts2.getD 0 0 = ts2.getD 1 0
  rw [hgrid 0 (by decide), hgrid 1 (by decide), hp]
  norm_num

/-- Claim C4 (amended): for every successful acquire, the timestamp of row
`i` equals `start_time + i * p` nanoseconds where `p` is the truncation of
`1e9 * (1 / sample_rate)` to whole nanoseconds (`f64ToI64`), not exactly
`start_time + i / sample_rate` seconds; consecutive rows are evenly spaced
by exactly `p` nanoseconds, and the timestamps are strictly increasing
whenever `p ≥ 1` nanosecond (in particular for any sample rate between 0
and 1e9 exclusive of overflow), rather than unconditionally. -/
theorem c4_timestamp_grid (t : DAQVTask) (d : DriverResp) (s : Int)
    (read : Int) (t2 : DAQVTask) (tr : List DriverCall)
    (h : t.acquire_samples d s = (.ok read, t2, tr)) :
    (∀ i, i < read.toNat →
      t2.timestamps.getD i 0 =
        s + f64ToI64 (1000000000 * (1 / t.sample_rate)) * i) ∧
    (∀ i, i + 1 < read.toNat →
      t2.timestamps.getD (i + 1) 0 - t2.timestamps.getD i 0 =
        f64ToI64 (1000000000 * (1 / t.sample_rate))) ∧
    (1 ≤ f64ToI64 (1000000000 * (1 / t.sample_rate)) →
      ∀ i j, i < j → j < read.toNat →
        t2.timestamps.getD i 0 < t2.timestamps.getD j 0) := by
  obtain ⟨hread, hfill, _⟩ := acquire_ok_inv t d s read t2 tr h
  subst hread
  have hgrid := fillLoop_grid s (f64ToI64 (1000000000 * (1 / t.sample_rate)))
    d.readCount.toNat t.timestamps t2.timestamps hfill
  refine ⟨hgrid, ?_, ?_⟩
  · intro i hi
    rw [hgrid (i + 1) hi, hgrid i (by omega)]
    push_cast
    ring
  · intro hp i j hij hj
    rw [hgrid i (by omega), hgrid j hj]
    have hmul : f64ToI64 (1000000000 * (1 / t.sample_rate)) * (i : Int) <
        f64ToI64 (1000000000 * (1 / t.sample_rate)) * (j : Int) :=
      mul_lt_mul_of_pos_left (by exact_mod_cast hij) (by omega)
    exact add_lt_add_left hmul s

/-- Claim C4 witness: the amended theorem evaluated at sample rate 1000
samples per second and 2 rows read, giving strictly increasing timestamps
0 and 1000000 nanoseconds. -/
theorem c4_timestamp_grid_witness :
    (c4wTask.acquire_samples c4Driver 0).2.1.timestamps.getD 0 0 <
      (c4wTask.acquire_samples c4Driver 0).2.1.timestamps.getD 1 0 := by
  obtain ⟨ts2, heq, hlen, hgrid⟩ := acquire_ok c4wTask c4Driver 0 rfl rfl rfl (by decide)
  have hp : f64ToI64 (1000000000 * (1 / c4wTask.sample_rate)) = 1000000 := by
    show f64ToI64 (1000000000 * (1 / (1000 : ℚ))) = 1000000
    norm_num [f64ToI64]
  have hstrict := (c4_timestamp_grid c4wTask c4Driver 0 2 _ _ heq).2.2
    (by rw [hp]; norm_num) 0 1 (by norm_num) (by decide)
  rw [heq]
  exact hstrict

/-- Claim C5 counterexample: two tasks constructed for very different
expected acquisition durations — 2 samples per channel at 1000 samples per
second (2 ms) versus 20 samples per channel at 1 sample per second (20 s,
exceeding the timeout) — both issue their blocking read with the identical
constant timeout of 10 seconds: the timeout is not proportional to
`sample_count / sample_rate` and does not grow with the sample count. -/
theorem c5_counterexample :
    c5xTaskA.sample_rate = 1000 ∧ c5xTaskA.timestamps.length = 4 ∧
    c5xTaskB.sample_rate = 1 ∧ c5xTaskB.timestamps.length = 40 ∧
    (c5xTaskA.acquire_samples c5Driver 0).2.2 =
      [DriverCall.startTask, DriverCall.readAnalogF64 10, DriverCall.stopTask] ∧
    (c5xTaskB.acquire_samples c5Driver 0).2.2 =
      [DriverCall.startTask, DriverCall.readAnalogF64 10, DriverCall.stopTask] := by
  exact ⟨by decide, by decide, by decide, by decide, by decide, by decide⟩

/-- Claim C5 (amended): every blocking read any acquire call ever issues is
passed the fixed literal timeout of 10.0 seconds, irrespective of the
task's sample rate or buffer size (hence of the configured sample count) —
the timeout is a hard-coded constant, not proportional to the expected
acquisition duration. -/
theorem c5_timeout_constant (t : DAQVTask) (d : DriverResp) (s : Int) (q : ℚ)
    (h : DriverCall.readAnalogF64 q ∈ (t.acquire_samples d s).2.2) : q = 10 := by
  simp only [DAQVTask.acquire_samples] at h
  split at h
  · simp at h
  · split at h
    · simp at h
      exact h
    · split at h
      · simp at h
        exact h
      · split at h
        · simp at h
          exact h
        · simp at h
          exact h

/-- Claim C5 witness: the amended theorem applied to the read call of a
concrete acquire. -/
theorem c5_timeout_constant_witness : (10 : ℚ) = 10 :=
  c5_timeout_constant c5xTaskA c5Driver 0 10 (by decide)

/-- Claim C6 counterexample: the driver's channel-count query succeeds and
reports zero channels; construction panics at `assert!(channels > 0)` —
the result is a panic, not an error result as the claim states. -/
theorem c6_counterexample :
    (DAQVTask.new c6xDriver [97] MeasurementMode.RSE 1000 1 0).1 =
      Outcome.panicked PanicKind.assertChannelsPositive ∧
    ((DAQVTask.new c6xDriver [97] MeasurementMode.RSE 1000 1 0).1).isErr
      = false := by
  exact ⟨by decide, by decide⟩

/-- Claim C6 (amended): on every successful construction the recorded
`channels` field equals the driver's reported post-expansion channel count
and is strictly positive; but when the channel-count query succeeds and
reports zero channels, construction panics via the `assert!` instead of
returning a configuration error result. -/
theorem c6_channels (d : DriverResp) (ch : List Nat) (mode : MeasurementMode)
    (rate : ℚ) (cnt : Nat) (now0 : Int) :
    (∀ t tr, DAQVTask.new d ch mode rate cnt now0 = (.ok t, tr) →
      t.channels = d.numChans ∧ 0 < t.channels) ∧
    (d.createTaskStatus = 0 → cstring_new ch ≠ none → d.createChanStatus = 0 →
      d.numChansStatus = 0 → d.numChans = 0 →
      (DAQVTask.new d ch mode rate cnt now0).1 =
        .panicked .assertChannelsPositive) := by
  constructor
  · intro t tr h
    obtain ⟨ht, hpos, _⟩ := new_ok_inv d ch mode rate cnt now0 t tr h
    subst ht
    exact ⟨rfl, hpos⟩
  · intro h1 h2 h3 h4 h5
    obtain ⟨v, hv⟩ := Option.ne_none_iff_exists'.mp h2
    simp [DAQVTask.new, h1, hv, h3, h4, h5]

/-- Claim C6 witness: the amended theorem evaluated on a successful
three-channel construction and on a zero-channel report. -/
theorem c6_channels_witness :
    ((⟨true, List.replicate 3 0, List.replicate 3 0, 3, 1000, 0⟩ : DAQVTask).channels
        = c6wDriver.numChans ∧
      0 < (⟨true, List.replicate 3 0, List.replicate 3 0, 3, 1000, 0⟩ : DAQVTask).channels) ∧
    (DAQVTask.new c6xDriver [98] MeasurementMode.RSE 1000 1 0).1 =
      .panicked .assertChannelsPositive := by
  constructor
  · exact (c6_channels c6wDriver [97] MeasurementMode.RSE 1000 1 0).1
      ⟨true, List.replicate 3 0, List.replicate 3 0, 3, 1000, 0⟩
      [DriverCall.createTask, DriverCall.createAIVoltageChan,
        DriverCall.getTaskNumChans, DriverCall.cfgSampClkTiming]
      (by decide)
  · exact (c6_channels c6xDriver [98] MeasurementMode.RSE 1000 1 0).2
      (by decide) (by decide) (by decide) (by decide) (by decide)

/-- Claim C7 counterexample: a start failure with status 5 and a read
failure with status 5 produce identical `Err` values — the returned error
carries only the driver status code, so it cannot also carry the failing
step's name (the traces show the failing steps differ). -/
theorem c7_counterexample :
    (c7Task.acquire_samples c7DStart 0).1 = Outcome.err 5 ∧
    (c7Task.acquire_samples c7DRead 0).1 = Outcome.err 5 ∧
    (c7Task.acquire_samples c7DStart 0).1 = (c7Task.acquire_samples c7DRead 0).1 ∧
    (c7Task.acquire_samples c7DStart 0).2.2 ≠ (c7Task.acquire_samples c7DRead 0).2.2 := by
  exact ⟨by decide, by decide, by decide, by decide⟩

/-- Claim C7 (amended): a non-zero status from start, read or stop makes
`acquire_samples` return `Err` carrying exactly that driver status code
(the step's name is only printed to stderr, not carried in the error), and
the task object remains usable: a subsequent acquire on the returned task
with all driver calls succeeding (and an in-range read count) returns `Ok`. -/
theorem c7_error_code_and_reuse (t : DAQVTask) (d : DriverResp) (s : Int)
    (d2 : DriverResp) (s2 : Int)
    (h2s : d2.startStatus = 0) (h2r : d2.readStatus = 0) (h2p : d2.stopStatus = 0)
    (h2b : d2.readCount.toNat ≤ t.timestamps.length) :
    (d.startStatus ≠ 0 →
      (t.acquire_samples d s).1 = .err d.startStatus ∧
      (((t.acquire_samples d s).2.1).acquire_samples d2 s2).1 = .ok d2.readCount) ∧
    (d.startStatus = 0 → d.readStatus ≠ 0 →
      (t.acquire_samples d s).1 = .err d.readStatus ∧
      (((t.acquire_samples d s).2.1).acquire_samples d2 s2).1 = .ok d2.readCount) ∧
    (d.startStatus = 0 → d.readStatus = 0 → d.stopStatus ≠ 0 →
      (t.acquire_samples d s).1 = .err d.stopStatus ∧
      (((t.acquire_samples d s).2.1).acquire_samples d2 s2).1 = .ok d2.readCount) := by
  refine ⟨?_, ?_, ?_⟩
  · intro h
    have e := acquire_start_err t d s h
    refine ⟨by rw [e], ?_⟩
    rw [e]
    obtain ⟨ts2, heq, _, _⟩ := acquire_ok t d2 s2 h2s h2r h2p h2b
    exact congrArg Prod.fst heq
  · intro h0 h
    have e := acquire_read_err t d s h0 h
    refine ⟨by rw [e], ?_⟩
    rw [e]
    obtain ⟨ts2, heq, _, _⟩ := acquire_ok t d2 s2 h2s h2r h2p h2b
    exact congrArg Prod.fst heq
  · intro h0 h1 h
    have e := acquire_stop_err t d s h0 h1 h
    refine ⟨by rw [e], ?_⟩
    rw [e]
    obtain ⟨ts2, heq, _, _⟩ := acquire_ok
      ⟨t.task_handle,
        overwriteFront t.samples (d.readCount.toNat * t.channels) d.readData,
        t.timestamps, t.channels, t.sample_rate, t.samples_read⟩
      d2 s2 h2s h2r h2p h2b
    exact congrArg Prod.fst heq

/-- Claim C7 witness: a start failure with status 5 returns `Err 5` and the
task accepts a subsequent successful acquire. -/
theorem c7_error_code_and_reuse_witness :
    (c7Task.acquire_samples c7DStart 0).1 = Outcome.err 5 ∧
    (((c7Task.acquire_samples c7DStart 0).2.1).acquire_samples c7DGood 0).1 =
      Outcome.ok 1 :=
  (c7_error_code_and_reuse c7Task c7DStart 0 c7DGood 0 rfl rfl rfl
    (by decide)).1 (by decide)

/-- Claim C8: after a successful construction both buffers have exactly
`channels * sample_count` entries, and this size is invariant under any
sequence of acquire attempts — acquire reuses and overwrites the same
storage and never reallocates or resizes either buffer. -/
theorem c8_buffers_fixed (d : DriverResp) (ch : List Nat) (mode : MeasurementMode)
    (rate : ℚ) (cnt : Nat) (now0 : Int) (t : DAQVTask) (tr : List DriverCall)
    (h : DAQVTask.new d ch mode rate cnt now0 = (.ok t, tr))
    (rounds : List (DriverResp × Int)) :
    t.samples.length = t.channels * cnt ∧
    t.timestamps.length = t.channels * cnt ∧
    (runAcquires t rounds).1.samples.length = t.channels * cnt ∧
    (runAcquires t rounds).1.timestamps.length = t.channels * cnt := by
  obtain ⟨ht, hpos, _⟩ := new_ok_inv d ch mode rate cnt now0 t tr h
  have hs : t.samples.length = t.channels * cnt := by
    rw [ht]
    simp
  have hts : t.timestamps.length = t.channels * cnt := by
    rw [ht]
    simp
  obtain ⟨_, h2, h3⟩ := runAcquires_preserves rounds t
  exact ⟨hs, hts, h2.trans hs, h3.trans hts⟩

/-- Claim C8 witness: a concrete 2-channel, 2-samples-per-channel task keeps
its 4-entry sample buffer across two acquire attempts. -/
theorem c8_buffers_fixed_witness :
    (runAcquires (⟨true, List.replicate 4 0, List.replicate 4 0, 2, 1000, 0⟩ : DAQVTask)
        [(c8Driver, 0), (c8Driver, 7)]).1.samples.length =
      (⟨true, List.replicate 4 0, List.replicate 4 0, 2, 1000, 0⟩ : DAQVTask).channels * 2 :=
  (c8_buffers_fixed c8Driver [97] MeasurementMode.RSE 1000 2 0
    ⟨true, List.replicate 4 0, List.replicate 4 0, 2, 1000, 0⟩
    [DriverCall.createTask, DriverCall.createAIVoltageChan,
      DriverCall.getTaskNumChans, DriverCall.cfgSampClkTiming]
    (by decide) [(c8Driver, 0), (c8Driver, 7)]).2.2.1

/-- Claim C9: with start, read and stop succeeding, the timestamp-fill loop
writes in bounds for every row exactly when the driver-reported read count
is at most the buffer capacity `channels * sample_count` (the acquire then
returns `Ok`); a larger reported count panics on an out-of-bounds index
instead of returning an error. -/
theorem c9_fill_bounds (t : DAQVTask) (d : DriverResp) (s : Int) (cnt : Nat)
    (hlen : t.timestamps.length = t.channels * cnt)
    (h0 : d.startStatus = 0) (h1 : d.readStatus = 0) (h2 : d.stopStatus = 0) :
    (d.readCount.toNat ≤ t.channels * cnt →
      (t.acquire_samples d s).1 = .ok d.readCount) ∧
    (t.channels * cnt < d.readCount.toNat →
      (t.acquire_samples d s).1 = .panicked .indexOutOfBounds) := by
  constructor
  · intro hb
    obtain ⟨ts2, heq, _, _⟩ := acquire_ok t d s h0 h1 h2 (by rw [hlen]; exact hb)
    exact congrArg Prod.fst heq
  · intro hb
    exact acquire_panics t d s h0 h1 h2 (by rw [hlen]; exact hb)

/-- Claim C9 witness: on a 4-entry buffer (2 channels, 2 samples per
channel) a reported count of 3 stays in bounds and returns `Ok`, while a
reported count of 5 panics out of bounds. -/
theorem c9_fill_bounds_witness :
    (c9Task.acquire_samples c9DOk 0).1 = Outcome.ok 3 ∧
    (c9Task.acquire_samples c9DBig 0).1 = Outcome.panicked PanicKind.indexOutOfBounds := by
  refine ⟨?_, ?_⟩
  · exact (c9_fill_bounds c9Task c9DOk 0 2 (by decide) rfl rfl rfl).1 (by decide)
  · exact (c9_fill_bounds c9Task c9DBig 0 2 (by decide) rfl rfl rfl).2 (by decide)

/-- Claim C10: once the create call has succeeded, a channel-expression
byte string containing a NUL byte makes construction panic at the
`CString::new(...).expect` instead of returning an error result, and the
conversion fails exactly on strings containing a NUL byte (so it always
succeeds on NUL-free strings). -/
theorem c10_cstring (d : DriverResp) (ch : List Nat) (mode : MeasurementMode)
    (rate : ℚ) (cnt : Nat) (now0 : Int) (hct : d.createTaskStatus = 0) :
    (ch.contains 0 = true →
      (DAQVTask.new d ch mode rate cnt now0).1 = .panicked .cstringNewFailed) ∧
    (ch.contains 0 = false →
      (DAQVTask.new d ch mode rate cnt now0).1 ≠ .panicked .cstringNewFailed) ∧
    (cstring_new ch = none ↔ ch.contains 0 = true) := by
  refine ⟨?_, ?_, ?_⟩
  · intro hc
    have hm : 0 ∈ ch := by simpa using hc
    simp [DAQVTask.new, hct, cstring_new, hm]
  · intro hc
    have hm : 0 ∉ ch := by simpa using hc
    have hv : cstring_new ch = some ch := by simp [cstring_new, hm]
    simp only [DAQVTask.new, hct, hv]
    by_cases hcc : d.createChanStatus = 0 <;>
      by_cases hns : d.numChansStatus = 0 <;>
        by_cases hnc : d.numChans = 0 <;>
          by_cases hcf : d.cfgClkStatus = 0 <;>
            simp [hcc, hns, hnc, hcf]
  · constructor
    · intro h
      cases hc : ch.contains 0 with
      | true => rfl
      | false =>
        have hm : 0 ∉ ch := by simpa using hc
        simp [cstring_new, hm] at h
    · intro hc
      have hm : 0 ∈ ch := by simpa using hc
      simp [cstring_new, hm]

/-- Claim C10 witness: a NUL byte inside the expression panics the
construction; a NUL-free expression never hits that panic. -/
theorem c10_cstring_witness :
    (DAQVTask.new c10Driver [97, 0, 98] MeasurementMode.RSE 1000 1 0).1 =
      .panicked .cstringNewFailed ∧
    (DAQVTask.new c10Driver [97] MeasurementMode.RSE 1000 1 0).1 ≠
      .panicked .cstringNewFailed := by
  refine ⟨?_, ?_⟩
  · exact (c10_cstring c10Driver [97, 0, 98] MeasurementMode.RSE 1000 1 0 rfl).1 (by decide)
  · exact (c10_cstring c10Driver [97] MeasurementMode.RSE 1000 1 0 rfl).2.1 (by decide)
